import Mathlib

/-!
Shallow embedding of `src/flights.py` (flights-mcp-server).

The file embeds the pure query-processing pipeline of the four MCP tools
(`get_general_flights_info`, `get_cheapest_flights`, `get_best_flights`,
`get_time_filtered_flights`): parameter validation, the empty-result checks,
the mode-specific filter/sort logic, per-flight formatting
(`format_flight_info` with its inner `expand_date`), and the
exception-to-message mapping of the `try/except` blocks.

Modelling conventions:
* A flight record (a dict produced by `asdict` on the backend's `Result`) is
  the structure `Flight`.  The `price` field is `Option String` because the
  code reads it both with `.get('price')` (which yields `None` when absent)
  and with `flight['price']` (which raises `KeyError` when absent); all other
  fields are read only with mandatory `[...]` access and are modelled as
  always present.
* The external backend call (`get_flights_from_filter` + `asdict`) is a
  parameter `backend : Except PyErr Payload`: either the dict payload or a
  raised exception.  `PyErr` keeps the three categories distinguished by the
  `except` clauses (`httpx.RequestError`, `ValueError` with its `str(e)`
  detail, and any other exception with its detail).
* Python exceptions raised inside the `try` body (IndexError from list
  indexing, KeyError from dict indexing, ValueError from `strptime`) are
  modelled as `Except.error` values threaded through the pipeline, with the
  corresponding CPython `str(e)` detail strings.
* Machine floats from `float(price)` are modelled as exact rationals
  (`parseFloatQ`, for the plain decimal notation of scraped price strings);
  `float('inf')` used as the sort key for missing/unparseable prices is the
  `⊤` of `WithTop ℚ`.
* Python's stable `sorted(..., key=...)` is `List.mergeSort`, which is a
  stable sort, hence extensionally the same function.
-/

namespace Flights

/-- The exception categories distinguished by the `except` clauses of each
tool: `httpx.RequestError`, `ValueError` (carrying `str(e)`), and any other
exception (carrying `str(e)`). -/
inductive PyErr where
  | requestError
  | valueError (detail : String)
  | other (detail : String)
deriving DecidableEq

instance {α : Type} [DecidableEq α] : DecidableEq (Except PyErr α) := fun x y =>
  match x, y with
  | .ok a, .ok b => decidable_of_iff (a = b) (by simp)
  | .error a, .error b => decidable_of_iff (a = b) (by simp)
  | .ok _, .error _ => .isFalse (fun h => Except.noConfusion h)
  | .error _, .ok _ => .isFalse (fun h => Except.noConfusion h)

/-! ### Python string primitives used by the code -/

/-- Helper for `pySplit`: splits a character list on runs of whitespace,
accumulating the current (reversed) token in `acc`. -/
def splitWsAux (acc : List Char) : List Char → List (List Char)
  | [] => if acc = [] then [] else [acc.reverse]
  | c :: cs =>
    if c.isWhitespace then
      if acc = [] then splitWsAux [] cs else acc.reverse :: splitWsAux [] cs
    else splitWsAux (c :: acc) cs

/-- Python `str.split()` with no argument: split on runs of whitespace,
discarding empty tokens. -/
def pySplit (s : String) : List String :=
  (splitWsAux [] s.data).map List.asString

/-- Helper for `splitOnSpace`, on character lists. -/
def splitSepAux (sep : Char) : List Char → List (List Char)
  | [] => [[]]
  | c :: cs =>
    match splitSepAux sep cs with
    | [] => [[]]
    | l :: ls => if c = sep then [] :: l :: ls else (c :: l) :: ls

/-- Python `str.split(" ")`: split on each single space, keeping empty
tokens (so the result is always non-empty). -/
def splitOnSpace (s : String) : List String :=
  (splitSepAux ' ' s.data).map List.asString

/-- Python `str.replace(c, "")`: remove every occurrence of the character. -/
def pyRemoveAll (c : Char) (s : String) : String :=
  ⟨s.data.filter (fun d => d ≠ c)⟩

/-- Python `str.rstrip(',')`: drop every trailing comma. -/
def rstripComma (s : String) : String :=
  ⟨(s.data.reverse.dropWhile (fun c => c = ',')).reverse⟩

/-- Python `str.endswith(suf)`. -/
def pyEndsWith (s suf : String) : Bool :=
  List.isSuffixOf suf.data s.data

/-! ### Python `float` on decimal notation -/

/-- Numeric value of a digit character. -/
def digitVal (c : Char) : Nat := c.toNat - '0'.toNat

/-- Value of a digit string read in base 10. -/
def digitsVal (cs : List Char) : Nat :=
  cs.foldl (fun acc c => acc * 10 + digitVal c) 0

/-- Unsigned part of Python `float(s)` restricted to plain decimal notation
`digits [ "." digits ]` (with at least one digit overall), which is the shape
of scraped price strings after `$` and `,` are removed.  Exponents,
`inf`/`nan` spellings and underscore separators are out of scope and parse to
`none`. -/
def parseUnsignedDec (cs : List Char) : Option ℚ :=
  match cs.dropWhile Char.isDigit with
  | [] =>
    if (cs.takeWhile Char.isDigit) = [] then none
    else some ((digitsVal (cs.takeWhile Char.isDigit) : ℚ))
  | '.' :: fp =>
    if fp.all Char.isDigit ∧ ¬((cs.takeWhile Char.isDigit) = [] ∧ fp = []) then
      some ((digitsVal (cs.takeWhile Char.isDigit) : ℚ)
        + (digitsVal fp : ℚ) / (10 : ℚ) ^ fp.length)
    else none
  | _ => none

/-- Python `float(s)` on decimal notation: surrounding whitespace is
stripped, then an optional sign and an unsigned decimal number. -/
def parseFloatQ (s : String) : Option ℚ :=
  match (s.data.dropWhile Char.isWhitespace).reverse.dropWhile Char.isWhitespace
      |>.reverse with
  | '-' :: rest => (parseUnsignedDec rest).map (fun q => -q)
  | '+' :: rest => parseUnsignedDec rest
  | cs => parseUnsignedDec cs

/-! ### `datetime.strptime(s, "%I:%M %p").time()` -/

/-- The `%I` directive: a 12-hour hour, one or two digits, value 1..12
(two-digit forms `10`..`12` and `01`..`09`, else a single digit 1..9).
Returns the hour and the remaining characters. -/
def parseHour12 : List Char → Option (Nat × List Char)
  | d1 :: d2 :: rest =>
    if d1 = '1' ∧ '0' ≤ d2 ∧ d2 ≤ '2' then some (10 + digitVal d2, rest)
    else if d1 = '0' ∧ '1' ≤ d2 ∧ d2 ≤ '9' then some (digitVal d2, rest)
    else if '1' ≤ d1 ∧ d1 ≤ '9' then some (digitVal d1, d2 :: rest)
    else none
  | [d1] => if '1' ≤ d1 ∧ d1 ≤ '9' then some (digitVal d1, []) else none
  | [] => none

/-- The `%M` directive: a minute, two digits `00`..`59` or a single digit.
Returns the minute and the remaining characters. -/
def parseMinute : List Char → Option (Nat × List Char)
  | d1 :: d2 :: rest =>
    if ('0' ≤ d1 ∧ d1 ≤ '5') ∧ d2.isDigit then
      some (digitVal d1 * 10 + digitVal d2, rest)
    else if d1.isDigit then some (digitVal d1, d2 :: rest)
    else none
  | [d1] => if d1.isDigit then some (digitVal d1, []) else none
  | [] => none

/-- The `%p` directive on the two final characters: `AM`/`PM`,
case-insensitive.  `true` means PM. -/
def parseAmPm (p1 p2 : Char) : Option Bool :=
  if (p1 = 'A' ∨ p1 = 'a') ∧ (p2 = 'M' ∨ p2 = 'm') then some false
  else if (p1 = 'P' ∨ p1 = 'p') ∧ (p2 = 'M' ∨ p2 = 'm') then some true
  else none

/-- `datetime.strptime(s, '%I:%M %p').time()` as minutes after midnight
(`12 AM` is 0, `12 PM` is 720); `none` models the `ValueError` raised on a
non-matching string.  The literal space in the format matches one or more
whitespace characters, and the whole string must be consumed. -/
def parse12 (s : String) : Option Nat :=
  match parseHour12 s.data with
  | none => none
  | some (h, rest1) =>
    match rest1 with
    | ':' :: rest2 =>
      match parseMinute rest2 with
      | none => none
      | some (m, rest3) =>
        match rest3 with
        | c :: restw =>
          if c.isWhitespace then
            match restw.dropWhile Char.isWhitespace with
            | [p1, p2] =>
              match parseAmPm p1 p2 with
              | some pm => some ((h % 12) * 60 + m + (if pm then 720 else 0))
              | none => none
            | _ => none
          else none
        | [] => none
    | _ => none

/-! ### Data model -/

/-- One scraped flight record (the dict obtained from `asdict` on the
backend's `Result`), restricted to the fields the code reads. -/
structure Flight where
  departure : String
  arrival : String
  duration : String
  price : Option String
  stops : Int
  name : String
  is_best : Bool
deriving DecidableEq

/-- The dict payload `result = asdict(...)`: `isEmpty` models the truthiness
test `not result`, `flights?` is `none` when the `"flights"` key is missing,
and `current_price` is the aggregate price figure (always present in an
`asdict` of the backend's dataclass). -/
structure Payload where
  isEmpty : Bool
  current_price : String
  flights? : Option (List Flight)
deriving DecidableEq

/-! ### `format_flight_info` and its helpers -/

/-- The `month_map` dict of `expand_date`. -/
def month_map : List (String × String) :=
  [("Jan", "January"), ("Feb", "February"), ("Mar", "March"),
   ("Apr", "April"), ("May", "May"), ("Jun", "June"),
   ("Jul", "July"), ("Aug", "August"), ("Sep", "September"),
   ("Oct", "October"), ("Nov", "November"), ("Dec", "December")]

/-- The `day_map` dict of `expand_date`. -/
def day_map : List (String × String) :=
  [("Mon", "Monday"), ("Tue", "Tuesday"), ("Wed", "Wednesday"),
   ("Thu", "Thursday"), ("Fri", "Friday"), ("Sat", "Saturday"),
   ("Sun", "Sunday")]

/-- Python `dict.get(k, k)`: look `k` up, falling back to `k` itself. -/
def lookupOr (m : List (String × String)) (k : String) : String :=
  match m.find? (fun p => p.1 == k) with
  | some p => p.2
  | none => k

/-- The ordinal-suffix expression of `expand_date`:
`'th' if not day.endswith(('1','2','3')) or day.endswith(('11','12','13'))
else ('st' if day.endswith('1') else ('nd' if day.endswith('2') else
('rd' if day.endswith('3') else 'th')))`. -/
def ordSuffix (day : String) : String :=
  if (!(pyEndsWith day "1" || pyEndsWith day "2" || pyEndsWith day "3"))
      || pyEndsWith day "11" || pyEndsWith day "12" || pyEndsWith day "13" then "th"
  else if pyEndsWith day "1" then "st"
  else if pyEndsWith day "2" then "nd"
  else if pyEndsWith day "3" then "rd"
  else "th"

/-- The inner `expand_date` of `format_flight_info`: `parts = date_str.split()`,
then `parts[0] + " " + parts[1]` is the time, `parts[3].rstrip(',')` the
weekday abbreviation, `parts[4]` the month abbreviation and `parts[5]` the
day number.  Fewer than six whitespace tokens raise `IndexError`
(`str(e) = "list index out of range"`). -/
def expand_date (date_str : String) : Except PyErr String :=
  match pySplit date_str with
  | t0 :: t1 :: _ :: wdTok :: moTok :: dayTok :: _ =>
    .ok ((t0 ++ " " ++ t1) ++ " on " ++ lookupOr day_map (rstripComma wdTok)
      ++ ", " ++ lookupOr month_map moTok ++ " " ++ (dayTok ++ ordSuffix dayTok))
  | _ => .error (.other "list index out of range")

/-- The duration rewrite at the top of `format_flight_info`:
`duration.split()` and, when there are exactly four tokens,
`f"{parts[0]} hours and {parts[2]} minutes"`, else the original string. -/
def durationFormatted (duration : String) : String :=
  match pySplit duration with
  | [p0, _, p2, _] => p0 ++ " hours and " ++ p2 ++ " minutes"
  | _ => duration

/-- `format_flight_info(flight_data, origin_airport, destination_airport)`.
The f-string evaluates `expand_date` on the departure, then on the arrival,
then reads `flight_data['price']` (a `KeyError`, `str(e) = "'price'"`, when
the key is absent); any of these may raise, modelled by `Except.error`. -/
def format_flight_info (flight_data : Flight)
    (origin_airport destination_airport : String) : Except PyErr String :=
  match expand_date flight_data.departure with
  | .error e => .error e
  | .ok dep =>
    match expand_date flight_data.arrival with
    | .error e => .error e
    | .ok arr =>
      match flight_data.price with
      | none => .error (.other "'price'")
      | some price =>
        .ok ("This flight departs at " ++ dep ++ " from " ++ origin_airport
          ++ ", local time, and arrives at " ++ arr ++ " in "
          ++ destination_airport ++ ", local time. The flight is operated by "
          ++ flight_data.name ++ " and has a duration of "
          ++ durationFormatted flight_data.duration ++ " with "
          ++ (if flight_data.stops > 0 then
                toString flight_data.stops ++ " stop"
                  ++ (if flight_data.stops ≠ 1 then "s" else "")
              else "non-stop")
          ++ " in between. And it's price is " ++ price ++ " and is "
          ++ (if flight_data.is_best then
                "considered one of the best options by Google Flights"
              else "an available option") ++ "!")

/-- The fully formatted line with a `""` default, used to state what the
success path of a tool produces once formatting is known not to raise. -/
def fmtD (origin_airport destination_airport : String) (f : Flight) : String :=
  ((format_flight_info f origin_airport destination_airport).toOption).getD ""

/-! ### The derived price key of `get_cheapest_flights` -/

/-- `get_price_value(flight)`: `flight.get('price')`; `None`, the empty
string (falsy) and the `'Price unavailable'` placeholder give `float('inf')`
(here `⊤`); otherwise `$` and `,` are removed and the string is parsed with
`float`, unparseable strings again giving `float('inf')`. -/
def get_price_value (flight : Flight) : WithTop ℚ :=
  match flight.price with
  | none => ⊤
  | some price_str =>
    if price_str = "" ∨ price_str = "Price unavailable" then ⊤
    else
      match parseFloatQ (pyRemoveAll ',' (pyRemoveAll '$' price_str)) with
      | some q => (q : WithTop ℚ)
      | none => ⊤

/-- The comparison `sorted(all_flights, key=get_price_value)` sorts by. -/
def priceLe (a b : Flight) : Bool :=
  decide (get_price_value a ≤ get_price_value b)

/-! ### Shared plumbing of the four tools -/

/-- The `for flight in top_n_flights: flight_info.append(format_flight_info(...))`
loop: formats each record in order, propagating the first raised exception. -/
def formatLines (origin_airport destination_airport : String) :
    List Flight → Except PyErr (List String)
  | [] => .ok []
  | f :: fs =>
    match format_flight_info f origin_airport destination_airport with
    | .error e => .error e
    | .ok line =>
      match formatLines origin_airport destination_airport fs with
      | .error e => .error e
      | .ok rest => .ok (line :: rest)

/-- Python `l[0:k]` for an `int` bound `k`: the first `k` elements when
`0 ≤ k`, and all but the last `|k|` elements when `k < 0`. -/
def pySlice0 {α : Type} (k : Int) (l : List α) : List α :=
  if 0 ≤ k then l.take k.toNat else l.take (l.length - (-k).toNat)

/-- The message list produced by the three `except` clauses of every tool. -/
def pyErrMsg : PyErr → List String
  | .requestError =>
    ["Unable to connect to the flight search service. Please try again later."]
  | .valueError d => ["Invalid data received: " ++ d]
  | .other d =>
    ["An unexpected error occurred while searching for flights: " ++ d]

/-- The `try/except` wrapper of every tool: a normal return passes through,
a raised exception becomes its one-element message list. -/
def runTool (body : Except PyErr (List String)) : List String :=
  match body with
  | .ok out => out
  | .error e => pyErrMsg e

/-- The four parameter checks shared by every tool, in source order with
short-circuiting: origin/destination length, departure-date shape, trip
type, seat type.  `none` means all checks passed. -/
def validateCommon (origin destination departure_date trip_type seat : String) :
    Option String :=
  if origin.length ≠ 3 ∨ destination.length ≠ 3 then
    some "Origin and destination must be 3 characters."
  else if departure_date.length ≠ 10 ∨ departure_date.data.getD 4 ' ' ≠ '-'
      ∨ departure_date.data.getD 7 ' ' ≠ '-' then
    some "Departure date must be in YYYY-MM-DD format."
  else if trip_type ≠ "one-way" ∧ trip_type ≠ "round-trip" then
    some "Trip type must be either 'one-way' or 'round-trip'."
  else if seat ≠ "economy" ∧ seat ≠ "premium-economy" ∧ seat ≠ "business"
      ∧ seat ≠ "first" then
    some "Seat type must be either 'economy', 'premium-economy', 'business', or 'first'."
  else none

/-! ### `get_general_flights_info` -/

/-- The `try` body of `get_general_flights_info` after the backend call:
payload checks, `top_n_flights = all_flights[0:min(n_flights, len(all_flights))]`,
formatting, and the aggregate-price header. -/
def generalBody (origin destination : String) (n_flights : Int)
    (backend : Except PyErr Payload) : Except PyErr (List String) :=
  match backend with
  | .error e => .error e
  | .ok result =>
    if result.isEmpty = true ∨ result.flights? = none then
      .ok ["No flight data available for the specified route and dates."]
    else
      let all_flights := result.flights?.getD []
      if all_flights = [] then
        .ok ["No flights found for the specified route and dates."]
      else
        match formatLines origin destination
            (pySlice0 (min n_flights (all_flights.length : Int)) all_flights) with
        | .error e => .error e
        | .ok flight_info =>
          .ok (("The current overall flight prices for this route and time are: "
            ++ result.current_price ++ ".") :: flight_info)

/-- The tool `get_general_flights_info`.  The passenger counts are forwarded
verbatim to the external backend and do not influence the pipeline, so they
are absorbed into the `backend` parameter. -/
def get_general_flights_info (origin destination departure_date trip_type seat : String)
    (n_flights : Int) (backend : Except PyErr Payload) : List String :=
  match validateCommon origin destination departure_date trip_type seat with
  | some msg => [msg]
  | none => runTool (generalBody origin destination n_flights backend)

/-! ### `get_cheapest_flights` -/

/-- The `try` body of `get_cheapest_flights` after the backend call:
payload checks, stable ascending sort by `get_price_value`,
`price_sorted_flights[0:min(30, len(...))]`, formatting, fixed header. -/
def cheapestBody (origin destination : String)
    (backend : Except PyErr Payload) : Except PyErr (List String) :=
  match backend with
  | .error e => .error e
  | .ok result =>
    if result.isEmpty = true ∨ result.flights? = none then
      .ok ["No flight data available for the specified route and dates."]
    else
      let all_flights := result.flights?.getD []
      if all_flights = [] then
        .ok ["No flights found for the specified route and dates."]
      else
        let price_sorted_flights := all_flights.mergeSort priceLe
        match formatLines origin destination
            (pySlice0 (min 30 (price_sorted_flights.length : Int))
              price_sorted_flights) with
        | .error e => .error e
        | .ok flight_info =>
          .ok ("Here are the cheapest flights for this route and time: "
            :: flight_info)

/-- The tool `get_cheapest_flights`. -/
def get_cheapest_flights (origin destination departure_date trip_type seat : String)
    (backend : Except PyErr Payload) : List String :=
  match validateCommon origin destination departure_date trip_type seat with
  | some msg => [msg]
  | none => runTool (cheapestBody origin destination backend)

/-! ### `get_best_flights` -/

/-- The `try` body of `get_best_flights` after the backend call: payload
checks, the `if flight['is_best']` selection loop, the empty-selection
message, `best_flights[0:min(30, len(...))]`, formatting, fixed header. -/
def bestBody (origin destination : String)
    (backend : Except PyErr Payload) : Except PyErr (List String) :=
  match backend with
  | .error e => .error e
  | .ok result =>
    if result.isEmpty = true ∨ result.flights? = none then
      .ok ["No flight data available for the specified route and dates."]
    else
      let all_flights := result.flights?.getD []
      if all_flights = [] then
        .ok ["No flights found for the specified route and dates."]
      else
        let best_flights := all_flights.filter (fun f => f.is_best)
        if best_flights = [] then
          .ok ["No best flights found for the specified route and dates."]
        else
          match formatLines origin destination
              (pySlice0 (min 30 (best_flights.length : Int)) best_flights) with
          | .error e => .error e
          | .ok flight_info =>
            .ok ("Here are the best flights for this route and time: "
              :: flight_info)

/-- The tool `get_best_flights`. -/
def get_best_flights (origin destination departure_date trip_type seat : String)
    (backend : Except PyErr Payload) : List String :=
  match validateCommon origin destination departure_date trip_type seat with
  | some msg => [msg]
  | none => runTool (bestBody origin destination backend)

/-! ### `get_time_filtered_flights` -/

/-- The per-record departure clock time of the time filter:
`parts = flight['departure'].split(" ")`, `time_str = parts[0] + " " + parts[1]`
(an `IndexError` when there is a single token), then
`datetime.strptime(time_str, '%I:%M %p').time()` (a `ValueError` when the
string does not match). -/
def depClockTime (f : Flight) : Except PyErr Nat :=
  match splitOnSpace f.departure with
  | p0 :: p1 :: _ =>
    match parse12 (p0 ++ " " ++ p1) with
    | some t => .ok t
    | none =>
      .error (.valueError ("time data '" ++ p0 ++ " " ++ p1
        ++ "' does not match format '%I:%M %p'"))
  | _ => .error (.other "list index out of range")

/-- The departure clock time with a `0` default, used in statements once
parsing is known to succeed. -/
def depTimeD (f : Flight) : Nat :=
  ((depClockTime f).toOption).getD 0

/-- The selection loop of `get_time_filtered_flights`: keeps each record in
order, with `before` keeping strictly-earlier departures and `after` keeping
departures at or after the target; a parse failure raises. -/
def timeSelect (state : String) (target_time : Nat) :
    List Flight → Except PyErr (List Flight)
  | [] => .ok []
  | f :: fs =>
    match depClockTime f with
    | .error e => .error e
    | .ok flight_time =>
      match timeSelect state target_time fs with
      | .error e => .error e
      | .ok rest =>
        if state = "before" then
          if flight_time < target_time then .ok (f :: rest) else .ok rest
        else if state = "after" then
          if target_time ≤ flight_time then .ok (f :: rest) else .ok rest
        else .ok rest

/-- The `try` body of `get_time_filtered_flights`: target-time parsing
(whose `ValueError` is caught locally and returned as a message), payload
checks, the selection loop, the empty-selection message, the 30-record cap,
formatting, and the mode-specific header. -/
def timeBody (state target_time_str origin destination : String)
    (backend : Except PyErr Payload) : Except PyErr (List String) :=
  match parse12 target_time_str with
  | none =>
    .ok ["Invalid time format. Please use HH:MM AM/PM format (e.g., '7:00 PM')."]
  | some target_time =>
    match backend with
    | .error e => .error e
    | .ok result =>
      if result.isEmpty = true ∨ result.flights? = none then
        .ok ["No flight data available for the specified route and dates."]
      else
        let all_flights := result.flights?.getD []
        if all_flights = [] then
          .ok ["No flights found for the specified route and dates."]
        else
          match timeSelect state target_time all_flights with
          | .error e => .error e
          | .ok valid_flights =>
            if valid_flights = [] then
              .ok ["No flights found " ++ state ++ " " ++ target_time_str
                ++ " for the specified route and dates."]
            else
              match formatLines origin destination
                  (pySlice0 (min 30 (valid_flights.length : Int)) valid_flights) with
              | .error e => .error e
              | .ok flight_info =>
                .ok (("Here are the time-filtered flights "
                  ++ (if state = "before" then "before" else "on or after")
                  ++ " " ++ target_time_str ++ ": ") :: flight_info)

/-- The tool `get_time_filtered_flights`: the common checks, then the state
check, then the `try` body. -/
def get_time_filtered_flights (state target_time_str origin destination
    departure_date trip_type seat : String)
    (backend : Except PyErr Payload) : List String :=
  match validateCommon origin destination departure_date trip_type seat with
  | some msg => [msg]
  | none =>
    if state ≠ "before" ∧ state ≠ "after" then
      ["State must be either 'before' or 'after'."]
    else runTool (timeBody state target_time_str origin destination backend)

/-! ### Concrete sample records, used to instantiate the theorems -/

/-- A well-formed scraped record: departs 9:40 AM, marked best, priced $300. -/
def sampleFlightA : Flight :=
  ⟨"9:40 AM on Sat, Apr 5", "5:15 PM on Sat, Apr 5", "7 hours 35 minutes",
   some "$300", 0, "Delta", true⟩

/-- A well-formed scraped record: departs 2:15 PM, not best, priced $200. -/
def sampleFlightB : Flight :=
  ⟨"2:15 PM on Mon, Nov 22", "5:15 PM on Mon, Nov 22", "3 hours 0 minutes",
   some "$200", 2, "United", false⟩

/-! ### Helper lemmas -/

theorem formatLines_ok (o d : String) :
    ∀ (l : List Flight), (∀ f ∈ l, (format_flight_info f o d).isOk = true) →
      formatLines o d l = .ok (l.map (fmtD o d))
  | [], _ => rfl
  | f :: fs, h => by
    have hf := h f (List.mem_cons_self f fs)
    have ih := formatLines_ok o d fs (fun g hg => h g (List.mem_cons_of_mem f hg))
    cases hfe : format_flight_info f o d with
    | error e => rw [hfe] at hf; simp [Except.isOk, Except.toBool] at hf
    | ok s => simp [formatLines, hfe, ih, fmtD, Except.toOption]

theorem pySlice0_min_30 {α : Type} (l : List α) :
    pySlice0 (min 30 (l.length : Int)) l = l.take 30 := by
  have h0 : (0 : Int) ≤ min 30 (l.length : Int) :=
    le_min (by norm_num) (Int.natCast_nonneg _)
  rw [pySlice0, if_pos h0]
  have ht : (min (30 : Int) (l.length : Int)).toNat = min 30 l.length := by omega
  rw [ht, List.take_eq_take]
  omega

theorem pySlice0_nonneg {α : Type} (n : Int) (hn : 0 ≤ n) (l : List α) :
    pySlice0 (min n (l.length : Int)) l = l.take (min n.toNat l.length) := by
  have h0 : (0 : Int) ≤ min n (l.length : Int) := le_min hn (Int.natCast_nonneg _)
  rw [pySlice0, if_pos h0]
  congr 1
  omega

theorem tools_validate_some (origin destination departure_date trip_type seat
    state tts msg : String) (n : Int) (b : Except PyErr Payload)
    (hv : validateCommon origin destination departure_date trip_type seat = some msg) :
    get_general_flights_info origin destination departure_date trip_type seat n b = [msg]
    ∧ get_cheapest_flights origin destination departure_date trip_type seat b = [msg]
    ∧ get_best_flights origin destination departure_date trip_type seat b = [msg]
    ∧ get_time_filtered_flights state tts origin destination departure_date
        trip_type seat b = [msg] := by
  refine ⟨?_, ?_, ?_, ?_⟩ <;>
    simp only [get_general_flights_info, get_cheapest_flights, get_best_flights,
      get_time_filtered_flights, hv]

/-! ### Claim theorems -/

/-- C10: the `n_flights` parameter of `get_general_flights_info` is never
validated: for every backend result with a non-empty flight list, a call
with `n_flights = 0` succeeds and returns exactly the one-element list
holding the aggregate-price header, with zero per-flight lines — the same
one-element shape as error outputs. -/
theorem n_flights_zero_unvalidated
    (origin destination departure_date trip_type seat cp : String)
    (flights : List Flight)
    (hv : validateCommon origin destination departure_date trip_type seat = none)
    (hne : flights ≠ []) :
    get_general_flights_info origin destination departure_date trip_type seat 0
        (.ok ⟨false, cp, some flights⟩)
      = ["The current overall flight prices for this route and time are: "
          ++ cp ++ "."] := by
  have hmin : min (0 : Int) ((flights.length : Int)) = 0 :=
    min_eq_left (Int.natCast_nonneg _)
  simp [get_general_flights_info, hv, generalBody, runTool, hne, hmin, pySlice0,
    formatLines]

/-- Witness for C10 at a concrete valid query and backend result. -/
theorem n_flights_zero_unvalidated_witness :
    get_general_flights_info "JFK" "FCO" "2025-05-05" "one-way" "economy" 0
        (.ok ⟨false, "low", some [sampleFlightA]⟩)
      = ["The current overall flight prices for this route and time are: low."] := by
  rw [n_flights_zero_unvalidated "JFK" "FCO" "2025-05-05" "one-way" "economy"
    "low" [sampleFlightA] (by decide) (by decide)]
  decide

/-- C8 (amended): for every backend result with a non-empty flight list `F`
of formattable records and every requested `n_flights ≥ 0`,
`get_general_flights_info` returns a header reporting the backend's
aggregate current-price figure followed by formatted lines for the first
`min(n_flights, |F|)` records of `F`, in backend-supplied order.  (For
negative `n_flights` the slice instead drops records from the end of the
list; see the counterexample.) -/
theorem general_flights_take_spec
    (origin destination departure_date trip_type seat cp : String)
    (n : Int) (flights : List Flight)
    (hn : 0 ≤ n)
    (hv : validateCommon origin destination departure_date trip_type seat = none)
    (hne : flights ≠ [])
    (hfmt : ∀ f ∈ flights, (format_flight_info f origin destination).isOk = true) :
    get_general_flights_info origin destination departure_date trip_type seat n
        (.ok ⟨false, cp, some flights⟩)
      = ("The current overall flight prices for this route and time are: "
          ++ cp ++ ".")
        :: ((flights.take (min n.toNat flights.length)).map (fmtD origin destination)) := by
  have hsl := pySlice0_nonneg n hn flights
  have hfl : formatLines origin destination (flights.take (min n.toNat flights.length))
      = .ok ((flights.take (min n.toNat flights.length)).map (fmtD origin destination)) :=
    formatLines_ok _ _ _ (fun f hf => hfmt f (List.take_subset _ _ hf))
  simp [get_general_flights_info, hv, generalBody, runTool, hne, hsl, hfl]

set_option maxRecDepth 8192 in
/-- Witness for C8's amended theorem at a concrete query, `n_flights = 1`
and two available records. -/
theorem general_flights_take_spec_witness :
    get_general_flights_info "JFK" "FCO" "2025-05-05" "one-way" "economy" 1
        (.ok ⟨false, "low", some [sampleFlightA, sampleFlightB]⟩)
      = ("The current overall flight prices for this route and time are: low.")
        :: (([sampleFlightA, sampleFlightB].take
            (min (1 : Int).toNat 2)).map (fmtD "JFK" "FCO")) := by
  have h := general_flights_take_spec "JFK" "FCO" "2025-05-05" "one-way" "economy"
    "low" 1 [sampleFlightA, sampleFlightB] (by decide) (by decide) (by decide)
    (by decide)
  rw [h]
  decide

set_option maxRecDepth 8192 in
/-- C8 counterexample: with `n_flights = -1` and two available records the
code returns the header plus one formatted record (Python's negative slice
bound `flights[0:-1]` drops records from the end), not the header plus "the
first `min(n_flights, |F|)` records" of the claim, which would be zero
records; so the claim fails for negative `n_flights`. -/
theorem general_flights_negative_counterexample :
    get_general_flights_info "JFK" "FCO" "2025-05-05" "one-way" "economy" (-1)
        (.ok ⟨false, "low", some [sampleFlightA, sampleFlightB]⟩)
      = ["The current overall flight prices for this route and time are: low.",
         fmtD "JFK" "FCO" sampleFlightA]
    ∧ (([sampleFlightA, sampleFlightB].take
          (min (-1 : Int) (2 : Int)).toNat).map (fmtD "JFK" "FCO")) = []
    ∧ get_general_flights_info "JFK" "FCO" "2025-05-05" "one-way" "economy" (-1)
        (.ok ⟨false, "low", some [sampleFlightA, sampleFlightB]⟩)
      ≠ "The current overall flight prices for this route and time are: low."
          :: (([sampleFlightA, sampleFlightB].take
            (min (-1 : Int) (2 : Int)).toNat).map (fmtD "JFK" "FCO")) := by
  decide

/-- C3: `get_best_flights` returns (after its header) formatted lines for
exactly those input records whose best flag is true, capped at 30, in the
records' original relative order; if no record has the best flag set, the
result is instead the single-element "no best flights" message.  (The input
list is assumed non-empty; an empty backend list is short-circuited earlier
by the shared "no flights found" check.) -/
theorem best_flights_spec
    (origin destination departure_date trip_type seat cp : String)
    (flights : List Flight)
    (hv : validateCommon origin destination departure_date trip_type seat = none)
    (hne : flights ≠ [])
    (hfmt : ∀ f ∈ flights, (format_flight_info f origin destination).isOk = true) :
    (flights.filter (fun f => f.is_best) = [] →
      get_best_flights origin destination departure_date trip_type seat
          (.ok ⟨false, cp, some flights⟩)
        = ["No best flights found for the specified route and dates."])
    ∧ (flights.filter (fun f => f.is_best) ≠ [] →
      get_best_flights origin destination departure_date trip_type seat
          (.ok ⟨false, cp, some flights⟩)
        = "Here are the best flights for this route and time: "
          :: (((flights.filter (fun f => f.is_best)).take 30).map
            (fmtD origin destination)))
    ∧ (∀ f : Flight,
        f ∈ flights.filter (fun f => f.is_best) ↔ f ∈ flights ∧ f.is_best = true) := by
  refine ⟨?_, ?_, fun f => List.mem_filter⟩
  · intro hb
    simp [get_best_flights, hv, bestBody, runTool, hne, hb]
  · intro hb
    have hsl := pySlice0_min_30 (flights.filter (fun f => f.is_best))
    have hfl := formatLines_ok origin destination
      ((flights.filter (fun f => f.is_best)).take 30)
      (fun f hf => hfmt f (List.mem_of_mem_filter (List.take_subset _ _ hf)))
    simp [get_best_flights, hv, bestBody, runTool, hne, hb, hsl, hfl]

/-- Witness for C3 (the nonempty-selection branch) at a concrete query where
only `sampleFlightA` carries the best flag. -/
theorem best_flights_spec_witness :
    get_best_flights "JFK" "FCO" "2025-05-05" "one-way" "economy"
        (.ok ⟨false, "low", some [sampleFlightA, sampleFlightB]⟩)
      = "Here are the best flights for this route and time: "
        :: ((([sampleFlightA, sampleFlightB].filter (fun f => f.is_best)).take 30).map
          (fmtD "JFK" "FCO")) :=
  (best_flights_spec "JFK" "FCO" "2025-05-05" "one-way" "economy" "low"
    [sampleFlightA, sampleFlightB] (by decide) (by decide) (by decide)).2.1
    (by decide)

/-- C1: `get_cheapest_flights` returns its header followed by the first
`min(30, length)` records of the backend list under a stable ascending sort
by the derived price key `get_price_value` — the price string with `$` and
`,` removed, parsed as a decimal number, with missing, placeholder or
unparseable prices mapped to a key (`⊤`) greater than every valid price —
where stability means every key-sorted sublist of the input is still a
sublist of the output, so equal-key records keep their input order.  (The
input list is assumed non-empty and formattable, as in C3.) -/
theorem cheapest_flights_spec
    (origin destination departure_date trip_type seat cp : String)
    (flights : List Flight)
    (hv : validateCommon origin destination departure_date trip_type seat = none)
    (hne : flights ≠ [])
    (hfmt : ∀ f ∈ flights, (format_flight_info f origin destination).isOk = true) :
    get_cheapest_flights origin destination departure_date trip_type seat
        (.ok ⟨false, cp, some flights⟩)
      = "Here are the cheapest flights for this route and time: "
        :: (((flights.mergeSort priceLe).take 30).map (fmtD origin destination))
    ∧ (flights.mergeSort priceLe).Perm flights
    ∧ (flights.mergeSort priceLe).Pairwise
        (fun a b => get_price_value a ≤ get_price_value b)
    ∧ (∀ c : List Flight,
        c.Pairwise (fun a b => get_price_value a ≤ get_price_value b) →
        c.Sublist flights → c.Sublist (flights.mergeSort priceLe))
    ∧ (∀ f : Flight, f.price = none → get_price_value f = ⊤)
    ∧ (∀ f : Flight, f.price = some "Price unavailable" → get_price_value f = ⊤)
    ∧ (∀ (f : Flight) (s : String), f.price = some s →
        parseFloatQ (pyRemoveAll ',' (pyRemoveAll '$' s)) = none →
        get_price_value f = ⊤)
    ∧ (∀ (f : Flight) (s : String) (q : ℚ), f.price = some s →
        parseFloatQ (pyRemoveAll ',' (pyRemoveAll '$' s)) = some q →
        get_price_value f = (q : WithTop ℚ))
    ∧ (∀ q : ℚ, (q : WithTop ℚ) < ⊤) := by
  have htrans : ∀ a b c : Flight,
      priceLe a b = true → priceLe b c = true → priceLe a c = true := by
    intro a b c hab hbc
    simp only [priceLe, decide_eq_true_eq] at hab hbc ⊢
    exact le_trans hab hbc
  have htotal : ∀ a b : Flight, (priceLe a b || priceLe b a) = true := by
    intro a b
    simp only [priceLe, Bool.or_eq_true, decide_eq_true_eq]
    exact le_total _ _
  refine ⟨?_, List.mergeSort_perm flights priceLe, ?_, ?_, ?_, ?_, ?_, ?_,
    fun q => WithTop.coe_lt_top q⟩
  · have hsl : pySlice0 (min 30 (flights.length : Int)) (flights.mergeSort priceLe)
        = (flights.mergeSort priceLe).take 30 := by
      have h := pySlice0_min_30 (flights.mergeSort priceLe)
      rwa [List.length_mergeSort] at h
    have hfl := formatLines_ok origin destination ((flights.mergeSort priceLe).take 30)
      (fun f hf => hfmt f (List.mem_mergeSort.mp (List.take_subset _ _ hf)))
    simp [get_cheapest_flights, hv, cheapestBody, runTool, hne, hsl, hfl]
  · exact (List.sorted_mergeSort htrans htotal flights).imp
      (fun h => by simpa [priceLe, decide_eq_true_eq] using h)
  · intro c hc hsub
    exact List.sublist_mergeSort htrans htotal
      (hc.imp (fun h => by simp [priceLe, decide_eq_true_eq]; exact h)) hsub
  · intro f hf
    simp [get_price_value, hf]
  · intro f hf
    simp [get_price_value, hf]
  · intro f s hs hparse
    simp [get_price_value, hs, hparse]
  · intro f s q hs hparse
    simp only [get_price_value, hs]
    rw [if_neg, hparse]
    rintro (rfl | rfl)
    · have hz : parseFloatQ (pyRemoveAll ',' (pyRemoveAll '$' "")) = none := by decide
      rw [hz] at hparse
      exact Option.noConfusion hparse
    · have hz : parseFloatQ (pyRemoveAll ',' (pyRemoveAll '$' "Price unavailable"))
          = none := by decide
      rw [hz] at hparse
      exact Option.noConfusion hparse

/-- Witness for C1 at a concrete query and two records with prices $300 and
$200. -/
theorem cheapest_flights_spec_witness :
    get_cheapest_flights "JFK" "FCO" "2025-05-05" "one-way" "economy"
        (.ok ⟨false, "low", some [sampleFlightA, sampleFlightB]⟩)
      = "Here are the cheapest flights for this route and time: "
        :: ((([sampleFlightA, sampleFlightB].mergeSort priceLe).take 30).map
          (fmtD "JFK" "FCO")) :=
  (cheapest_flights_spec "JFK" "FCO" "2025-05-05" "one-way" "economy" "low"
    [sampleFlightA, sampleFlightB] (by decide) (by decide) (by decide)).1

theorem timeSelect_before (target : Nat) :
    ∀ l : List Flight, (∀ f ∈ l, (depClockTime f).isOk = true) →
      timeSelect "before" target l
        = .ok (l.filter (fun f => decide (depTimeD f < target)))
  | [], _ => rfl
  | f :: fs, h => by
    have hf := h f (List.mem_cons_self f fs)
    have ih := timeSelect_before target fs (fun g hg => h g (List.mem_cons_of_mem f hg))
    cases hdc : depClockTime f with
    | error e => rw [hdc] at hf; simp [Except.isOk, Except.toBool] at hf
    | ok t =>
      have hdt : depTimeD f = t := by simp [depTimeD, hdc, Except.toOption]
      by_cases hlt : t < target
      · simp [timeSelect, hdc, ih, List.filter_cons, hdt, hlt]
      · simp [timeSelect, hdc, ih, List.filter_cons, hdt, hlt]

theorem timeSelect_after (target : Nat) :
    ∀ l : List Flight, (∀ f ∈ l, (depClockTime f).isOk = true) →
      timeSelect "after" target l
        = .ok (l.filter (fun f => decide (target ≤ depTimeD f)))
  | [], _ => rfl
  | f :: fs, h => by
    have hf := h f (List.mem_cons_self f fs)
    have ih := timeSelect_after target fs (fun g hg => h g (List.mem_cons_of_mem f hg))
    cases hdc : depClockTime f with
    | error e => rw [hdc] at hf; simp [Except.isOk, Except.toBool] at hf
    | ok t =>
      have hdt : depTimeD f = t := by simp [depTimeD, hdc, Except.toOption]
      by_cases hle : target ≤ t
      · simp [timeSelect, hdc, ih, List.filter_cons, hdt, hle]
      · simp [timeSelect, hdc, ih, List.filter_cons, hdt, hle]

/-- C2: for every target clock time, the selection of
`get_time_filtered_flights` with state `"before"` keeps exactly the records
whose parsed departure clock time is strictly less than the target, and with
state `"after"` exactly those at or after the target; a record whose
departure time equals the target is in the `"after"` result and not in the
`"before"` result.  The last two conjuncts state the corresponding
end-to-end outputs of the tool itself. -/
theorem time_filter_selection (target : Nat) (l : List Flight)
    (h : ∀ f ∈ l, (depClockTime f).isOk = true) :
    timeSelect "before" target l
      = .ok (l.filter (fun f => decide (depTimeD f < target)))
    ∧ timeSelect "after" target l
      = .ok (l.filter (fun f => decide (target ≤ depTimeD f)))
    ∧ (∀ f ∈ l, depTimeD f = target →
        f ∈ l.filter (fun f => decide (target ≤ depTimeD f))
        ∧ f ∉ l.filter (fun f => decide (depTimeD f < target)))
    ∧ (∀ origin destination departure_date trip_type seat tts cp : String,
        validateCommon origin destination departure_date trip_type seat = none →
        parse12 tts = some target →
        l ≠ [] →
        l.filter (fun f => decide (depTimeD f < target)) ≠ [] →
        (∀ f ∈ l, (format_flight_info f origin destination).isOk = true) →
        get_time_filtered_flights "before" tts origin destination departure_date
            trip_type seat (.ok ⟨false, cp, some l⟩)
          = ("Here are the time-filtered flights before " ++ tts ++ ": ")
            :: (((l.filter (fun f => decide (depTimeD f < target))).take 30).map
              (fmtD origin destination)))
    ∧ (∀ origin destination departure_date trip_type seat tts cp : String,
        validateCommon origin destination departure_date trip_type seat = none →
        parse12 tts = some target →
        l ≠ [] →
        l.filter (fun f => decide (target ≤ depTimeD f)) ≠ [] →
        (∀ f ∈ l, (format_flight_info f origin destination).isOk = true) →
        get_time_filtered_flights "after" tts origin destination departure_date
            trip_type seat (.ok ⟨false, cp, some l⟩)
          = ("Here are the time-filtered flights on or after " ++ tts ++ ": ")
            :: (((l.filter (fun f => decide (target ≤ depTimeD f))).take 30).map
              (fmtD origin destination))) := by
  refine ⟨timeSelect_before target l h, timeSelect_after target l h, ?_, ?_, ?_⟩
  · intro f hfl hft
    constructor
    · exact List.mem_filter.mpr ⟨hfl, by simp [hft]⟩
    · intro hmem
      have hlt := (List.mem_filter.mp hmem).2
      simp [hft] at hlt
  · intro origin destination departure_date trip_type seat tts cp hv ht hne hfne hfmt
    have hsel := timeSelect_before target l h
    have hsl := pySlice0_min_30 (l.filter (fun f => decide (depTimeD f < target)))
    have hfl := formatLines_ok origin destination
      ((l.filter (fun f => decide (depTimeD f < target))).take 30)
      (fun f hf => hfmt f (List.mem_of_mem_filter (List.take_subset _ _ hf)))
    simp [get_time_filtered_flights, hv, timeBody, runTool, ht, hne, hsel, hfne,
      hsl, hfl]
  · intro origin destination departure_date trip_type seat tts cp hv ht hne hfne hfmt
    have hsel := timeSelect_after target l h
    have hsl := pySlice0_min_30 (l.filter (fun f => decide (target ≤ depTimeD f)))
    have hfl := formatLines_ok origin destination
      ((l.filter (fun f => decide (target ≤ depTimeD f))).take 30)
      (fun f hf => hfmt f (List.mem_of_mem_filter (List.take_subset _ _ hf)))
    simp [get_time_filtered_flights, hv, timeBody, runTool, ht, hne, hsel, hfne,
      hsl, hfl]

/-- Witness for C2 at target 9:40 AM (580 minutes) and the two sample
records (departing 9:40 AM and 2:15 PM): the record at the boundary is kept
by `"after"` and dropped by `"before"`. -/
theorem time_filter_selection_witness :
    timeSelect "before" 580 [sampleFlightA, sampleFlightB]
      = .ok ([sampleFlightA, sampleFlightB].filter
        (fun f => decide (depTimeD f < 580))) :=
  (time_filter_selection 580 [sampleFlightA, sampleFlightB] (by decide)).1

/-- C4 counterexample: `"1 hr 30 min"` splits into four tokens that do NOT
match the pattern `<hours> "hours" <minutes> "minutes"` (token 1 is `"hr"`),
yet the code rewrites it to `"1 hours and 30 minutes"` instead of passing it
through unchanged — the code checks only the token count, never the literal
tokens. -/
theorem duration_expansion_counterexample :
    pySplit "1 hr 30 min" = ["1", "hr", "30", "min"]
    ∧ durationFormatted "1 hr 30 min" = "1 hours and 30 minutes"
    ∧ durationFormatted "1 hr 30 min" ≠ "1 hr 30 min" := by
  decide

/-- C4 (amended): duration expansion rewrites a duration string as
`"<t0> hours and <t2> minutes"` exactly when the string tokenizes into four
whitespace-separated tokens `t0 t1 t2 t3` — the literal tokens `"hours"` and
`"minutes"` are not checked — and every string with a different token count
is passed through unchanged; in particular `"4 hours 30 minutes"` maps to
`"4 hours and 30 minutes"` and `"4h30m"` is returned unchanged. -/
theorem duration_expansion_amended (s t0 t1 t2 t3 : String)
    (h : pySplit s = [t0, t1, t2, t3]) :
    durationFormatted s = t0 ++ " hours and " ++ t2 ++ " minutes"
    ∧ (∀ u : String, (pySplit u).length ≠ 4 → durationFormatted u = u)
    ∧ durationFormatted "4 hours 30 minutes" = "4 hours and 30 minutes"
    ∧ durationFormatted "4h30m" = "4h30m" := by
  refine ⟨by rw [durationFormatted, h], ?_, by decide, by decide⟩
  intro u hu
  rw [durationFormatted]
  split
  · rename_i heq
    rw [heq] at hu
    simp at hu
  · rfl

/-- Witness for C4's amended theorem at the spec's own example string. -/
theorem duration_expansion_amended_witness :
    durationFormatted "4 hours 30 minutes" = "4" ++ " hours and " ++ "30" ++ " minutes" :=
  (duration_expansion_amended "4 hours 30 minutes" "4" "hours" "30" "minutes"
    (by decide)).1

/-- C5 counterexample: on the claimed five-token shape
`"<H:MM AM/PM> <weekday-abbr>, <month-abbr> <day>"` the code raises
`IndexError` (it reads `parts[5]`), so `"9:40 AM Sat, Apr 5"` does not map
to `"9:40 AM on Saturday, April 5th"`; the scraped display strings actually
carry a sixth token (`"9:40 AM on Sat, Apr 5"`). -/
theorem date_expansion_counterexample :
    expand_date "9:40 AM Sat, Apr 5" = .error (PyErr.other "list index out of range")
    ∧ expand_date "9:40 AM Sat, Apr 5" ≠ .ok "9:40 AM on Saturday, April 5th"
    ∧ expand_date "2:15 PM Mon, Nov 22" = .error (PyErr.other "list index out of range")
    ∧ expand_date "2:15 PM Mon, Nov 22" ≠ .ok "2:15 PM on Monday, November 22nd" := by
  decide

/-- C5 (amended): for every display string of the six-token shape
`"<H:MM AM/PM> <filler> <weekday-abbr>, <month-abbr> <day>"` (the third
token, `"on"` in scraped data, is skipped), date expansion returns
`"<time> on <full weekday>, <full month> <day+ordinal>"`, expanding the
weekday (after stripping its trailing comma) and month abbreviations via the
fixed lookup tables and appending the ordinal suffix — `"th"` for days
ending in 11, 12, 13 or not ending in 1/2/3, else `"st"`/`"nd"`/`"rd"` — so
`"9:40 AM on Sat, Apr 5"` maps to `"9:40 AM on Saturday, April 5th"` and
`"2:15 PM on Mon, Nov 22"` maps to `"2:15 PM on Monday, November 22nd"`. -/
theorem date_expansion_amended (s t0 t1 t2 wdTok moTok dayTok : String)
    (h : pySplit s = [t0, t1, t2, wdTok, moTok, dayTok]) :
    expand_date s = .ok ((t0 ++ " " ++ t1) ++ " on "
        ++ lookupOr day_map (rstripComma wdTok) ++ ", " ++ lookupOr month_map moTok
        ++ " " ++ (dayTok ++ ordSuffix dayTok))
    ∧ expand_date "9:40 AM on Sat, Apr 5" = .ok "9:40 AM on Saturday, April 5th"
    ∧ expand_date "2:15 PM on Mon, Nov 22" = .ok "2:15 PM on Monday, November 22nd"
    ∧ ordSuffix "11" = "th" ∧ ordSuffix "12" = "th" ∧ ordSuffix "13" = "th"
    ∧ ordSuffix "21" = "st" ∧ ordSuffix "22" = "nd" ∧ ordSuffix "23" = "rd"
    ∧ ordSuffix "5" = "th" ∧ ordSuffix "1" = "st" := by
  refine ⟨by rw [expand_date, h], by decide, by decide, by decide, by decide,
    by decide, by decide, by decide, by decide, by decide, by decide⟩

/-- Witness for C5's amended theorem at the six-token form of the spec's
first example. -/
theorem date_expansion_amended_witness :
    expand_date "9:40 AM on Sat, Apr 5" = .ok (("9:40" ++ " " ++ "AM") ++ " on "
        ++ lookupOr day_map (rstripComma "Sat,") ++ ", " ++ lookupOr month_map "Apr"
        ++ " " ++ ("5" ++ ordSuffix "5")) :=
  (date_expansion_amended "9:40 AM on Sat, Apr 5" "9:40" "AM" "on" "Sat," "Apr" "5"
    (by decide)).1

/-- C6: the parameter checks run in the fixed order origin/destination
length, departure-date shape, trip type, seat type and — for the
time-filtered tool — state and target-time parseability; the call
short-circuits at the first failed check and returns exactly the one-element
list holding that check's rejection message, for every backend outcome
(hence before any backend invocation).  The last two conjuncts are the
spec's concrete examples, origin `"JF"` and departure date `"2025-1-5"`. -/
theorem validation_order_spec
    (origin destination departure_date trip_type seat state tts : String)
    (n : Int) (b : Except PyErr Payload) :
    ((origin.length ≠ 3 ∨ destination.length ≠ 3) →
      get_general_flights_info origin destination departure_date trip_type seat n b
          = ["Origin and destination must be 3 characters."]
      ∧ get_cheapest_flights origin destination departure_date trip_type seat b
          = ["Origin and destination must be 3 characters."]
      ∧ get_best_flights origin destination departure_date trip_type seat b
          = ["Origin and destination must be 3 characters."]
      ∧ get_time_filtered_flights state tts origin destination departure_date
          trip_type seat b = ["Origin and destination must be 3 characters."])
    ∧ (origin.length = 3 → destination.length = 3 →
       (departure_date.length ≠ 10 ∨ departure_date.data.getD 4 ' ' ≠ '-'
         ∨ departure_date.data.getD 7 ' ' ≠ '-') →
      get_general_flights_info origin destination departure_date trip_type seat n b
          = ["Departure date must be in YYYY-MM-DD format."]
      ∧ get_cheapest_flights origin destination departure_date trip_type seat b
          = ["Departure date must be in YYYY-MM-DD format."]
      ∧ get_best_flights origin destination departure_date trip_type seat b
          = ["Departure date must be in YYYY-MM-DD format."]
      ∧ get_time_filtered_flights state tts origin destination departure_date
          trip_type seat b = ["Departure date must be in YYYY-MM-DD format."])
    ∧ (origin.length = 3 → destination.length = 3 →
       departure_date.length = 10 → departure_date.data.getD 4 ' ' = '-' →
       departure_date.data.getD 7 ' ' = '-' →
       trip_type ≠ "one-way" → trip_type ≠ "round-trip" →
      get_general_flights_info origin destination departure_date trip_type seat n b
          = ["Trip type must be either 'one-way' or 'round-trip'."]
      ∧ get_cheapest_flights origin destination departure_date trip_type seat b
          = ["Trip type must be either 'one-way' or 'round-trip'."]
      ∧ get_best_flights origin destination departure_date trip_type seat b
          = ["Trip type must be either 'one-way' or 'round-trip'."]
      ∧ get_time_filtered_flights state tts origin destination departure_date
          trip_type seat b = ["Trip type must be either 'one-way' or 'round-trip'."])
    ∧ (origin.length = 3 → destination.length = 3 →
       departure_date.length = 10 → departure_date.data.getD 4 ' ' = '-' →
       departure_date.data.getD 7 ' ' = '-' →
       (trip_type = "one-way" ∨ trip_type = "round-trip") →
       seat ≠ "economy" → seat ≠ "premium-economy" → seat ≠ "business" →
       seat ≠ "first" →
      get_general_flights_info origin destination departure_date trip_type seat n b
          = ["Seat type must be either 'economy', 'premium-economy', 'business', or 'first'."]
      ∧ get_cheapest_flights origin destination departure_date trip_type seat b
          = ["Seat type must be either 'economy', 'premium-economy', 'business', or 'first'."]
      ∧ get_best_flights origin destination departure_date trip_type seat b
          = ["Seat type must be either 'economy', 'premium-economy', 'business', or 'first'."]
      ∧ get_time_filtered_flights state tts origin destination departure_date
          trip_type seat b
          = ["Seat type must be either 'economy', 'premium-economy', 'business', or 'first'."])
    ∧ (validateCommon origin destination departure_date trip_type seat = none →
       state ≠ "before" → state ≠ "after" →
       get_time_filtered_flights state tts origin destination departure_date
          trip_type seat b = ["State must be either 'before' or 'after'."])
    ∧ (validateCommon origin destination departure_date trip_type seat = none →
       (state = "before" ∨ state = "after") → parse12 tts = none →
       get_time_filtered_flights state tts origin destination departure_date
          trip_type seat b
          = ["Invalid time format. Please use HH:MM AM/PM format (e.g., '7:00 PM')."])
    ∧ get_general_flights_info "JF" destination departure_date trip_type seat n b
        = ["Origin and destination must be 3 characters."]
    ∧ (origin.length = 3 → destination.length = 3 →
       get_general_flights_info origin destination "2025-1-5" trip_type seat n b
        = ["Departure date must be in YYYY-MM-DD format."]) := by
  refine ⟨?_, ?_, ?_, ?_, ?_, ?_, ?_, ?_⟩
  · intro h
    exact tools_validate_some origin destination departure_date trip_type seat
      state tts _ n b (by simp only [validateCommon]; rw [if_pos h])
  · intro ho hd hdate
    exact tools_validate_some origin destination departure_date trip_type seat
      state tts _ n b
      (by simp only [validateCommon]
          rw [if_neg (by simp [ho, hd]), if_pos hdate])
  · intro ho hd h1 h2 h3 ht1 ht2
    exact tools_validate_some origin destination departure_date trip_type seat
      state tts _ n b
      (by simp only [validateCommon]
          rw [if_neg (by simp [ho, hd]), if_neg (by push_neg; exact ⟨h1, h2, h3⟩),
            if_pos ⟨ht1, ht2⟩])
  · intro ho hd h1 h2 h3 htrip hs1 hs2 hs3 hs4
    exact tools_validate_some origin destination departure_date trip_type seat
      state tts _ n b
      (by simp only [validateCommon]
          rw [if_neg (by simp [ho, hd]), if_neg (by push_neg; exact ⟨h1, h2, h3⟩),
            if_neg (by rcases htrip with rfl | rfl <;> simp),
            if_pos ⟨hs1, hs2, hs3, hs4⟩])
  · intro hv hs1 hs2
    simp only [get_time_filtered_flights, hv]
    rw [if_pos ⟨hs1, hs2⟩]
  · intro hv hst htn
    simp only [get_time_filtered_flights, hv]
    rw [if_neg (by rcases hst with rfl | rfl <;> simp)]
    simp only [timeBody, htn, runTool]
  · exact (tools_validate_some "JF" destination departure_date trip_type seat
      state tts _ n b
      (by simp only [validateCommon]; rw [if_pos (Or.inl (by decide))])).1
  · intro ho hd
    exact (tools_validate_some origin destination "2025-1-5" trip_type seat
      state tts _ n b
      (by simp only [validateCommon]
          rw [if_neg (by simp [ho, hd]), if_pos (Or.inl (by decide))])).1

/-- Witness for C6 at a concrete two-letter origin, showing the first check
fires regardless of the backend outcome. -/
theorem validation_order_spec_witness :
    get_general_flights_info "JF" "FCO" "2025-05-05" "one-way" "economy" 40
        (.error .requestError) = ["Origin and destination must be 3 characters."] :=
  ((validation_order_spec "JF" "FCO" "2025-05-05" "one-way" "economy" "before"
    "7:00 PM" 40 (.error .requestError)).1 (by decide)).1

/-- C7: no tool call propagates an exception: a connectivity failure
(`httpx.RequestError`) yields the fixed service-unreachable message, a
`ValueError` yields `"Invalid data received: "` plus the detail, any other
exception yields the generic unexpected-error message plus the detail, every
such message list has exactly one element, and — for exceptions raised
during processing after a successful backend call — whenever a tool's `try`
body evaluates to a raised exception the tool returns that exception's
one-element message list. -/
theorem error_channel_spec
    (origin destination departure_date trip_type seat state tts : String)
    (n : Int)
    (hv : validateCommon origin destination departure_date trip_type seat = none)
    (hstate : state = "before" ∨ state = "after")
    (htime : (parse12 tts).isSome = true) :
    (get_general_flights_info origin destination departure_date trip_type seat n
        (.error .requestError)
        = ["Unable to connect to the flight search service. Please try again later."]
     ∧ get_cheapest_flights origin destination departure_date trip_type seat
        (.error .requestError)
        = ["Unable to connect to the flight search service. Please try again later."]
     ∧ get_best_flights origin destination departure_date trip_type seat
        (.error .requestError)
        = ["Unable to connect to the flight search service. Please try again later."]
     ∧ get_time_filtered_flights state tts origin destination departure_date
        trip_type seat (.error .requestError)
        = ["Unable to connect to the flight search service. Please try again later."])
    ∧ (∀ d : String,
       get_general_flights_info origin destination departure_date trip_type seat n
          (.error (.valueError d)) = ["Invalid data received: " ++ d]
       ∧ get_cheapest_flights origin destination departure_date trip_type seat
          (.error (.valueError d)) = ["Invalid data received: " ++ d]
       ∧ get_best_flights origin destination departure_date trip_type seat
          (.error (.valueError d)) = ["Invalid data received: " ++ d]
       ∧ get_time_filtered_flights state tts origin destination departure_date
          trip_type seat (.error (.valueError d)) = ["Invalid data received: " ++ d])
    ∧ (∀ d : String,
       get_general_flights_info origin destination departure_date trip_type seat n
          (.error (.other d))
          = ["An unexpected error occurred while searching for flights: " ++ d]
       ∧ get_cheapest_flights origin destination departure_date trip_type seat
          (.error (.other d))
          = ["An unexpected error occurred while searching for flights: " ++ d]
       ∧ get_best_flights origin destination departure_date trip_type seat
          (.error (.other d))
          = ["An unexpected error occurred while searching for flights: " ++ d]
       ∧ get_time_filtered_flights state tts origin destination departure_date
          trip_type seat (.error (.other d))
          = ["An unexpected error occurred while searching for flights: " ++ d])
    ∧ (∀ e : PyErr, (pyErrMsg e).length = 1)
    ∧ (∀ (b : Except PyErr Payload) (e : PyErr),
        generalBody origin destination n b = .error e →
        get_general_flights_info origin destination departure_date trip_type seat
          n b = pyErrMsg e)
    ∧ (∀ (b : Except PyErr Payload) (e : PyErr),
        cheapestBody origin destination b = .error e →
        get_cheapest_flights origin destination departure_date trip_type seat b
          = pyErrMsg e)
    ∧ (∀ (b : Except PyErr Payload) (e : PyErr),
        bestBody origin destination b = .error e →
        get_best_flights origin destination departure_date trip_type seat b
          = pyErrMsg e)
    ∧ (∀ (b : Except PyErr Payload) (e : PyErr),
        timeBody state tts origin destination b = .error e →
        get_time_filtered_flights state tts origin destination departure_date
          trip_type seat b = pyErrMsg e) := by
  obtain ⟨t, ht⟩ := Option.isSome_iff_exists.mp htime
  have hsif : ¬(state ≠ "before" ∧ state ≠ "after") := by
    rcases hstate with rfl | rfl <;> simp
  refine ⟨⟨?_, ?_, ?_, ?_⟩, fun d => ⟨?_, ?_, ?_, ?_⟩, fun d => ⟨?_, ?_, ?_, ?_⟩,
    fun e => by cases e <;> rfl, ?_, ?_, ?_, ?_⟩
  · simp [get_general_flights_info, hv, generalBody, runTool, pyErrMsg]
  · simp [get_cheapest_flights, hv, cheapestBody, runTool, pyErrMsg]
  · simp [get_best_flights, hv, bestBody, runTool, pyErrMsg]
  · simp only [get_time_filtered_flights, hv]
    rw [if_neg hsif]
    simp [timeBody, ht, runTool, pyErrMsg]
  · simp [get_general_flights_info, hv, generalBody, runTool, pyErrMsg]
  · simp [get_cheapest_flights, hv, cheapestBody, runTool, pyErrMsg]
  · simp [get_best_flights, hv, bestBody, runTool, pyErrMsg]
  · simp only [get_time_filtered_flights, hv]
    rw [if_neg hsif]
    simp [timeBody, ht, runTool, pyErrMsg]
  · simp [get_general_flights_info, hv, generalBody, runTool, pyErrMsg]
  · simp [get_cheapest_flights, hv, cheapestBody, runTool, pyErrMsg]
  · simp [get_best_flights, hv, bestBody, runTool, pyErrMsg]
  · simp only [get_time_filtered_flights, hv]
    rw [if_neg hsif]
    simp [timeBody, ht, runTool, pyErrMsg]
  · intro b e hbe
    simp only [get_general_flights_info, hv, runTool, hbe]
  · intro b e hbe
    simp only [get_cheapest_flights, hv, runTool, hbe]
  · intro b e hbe
    simp only [get_best_flights, hv, runTool, hbe]
  · intro b e hbe
    simp only [get_time_filtered_flights, hv]
    rw [if_neg hsif]
    simp only [runTool, hbe]

/-- Witness for C7 at a concrete valid query and a connectivity failure. -/
theorem error_channel_spec_witness :
    get_general_flights_info "JFK" "FCO" "2025-05-05" "one-way" "economy" 40
        (.error .requestError)
      = ["Unable to connect to the flight search service. Please try again later."] :=
  (error_channel_spec "JFK" "FCO" "2025-05-05" "one-way" "economy" "before"
    "7:00 PM" 40 (by decide) (Or.inl rfl) (by decide)).1.1

/-- C9: in every one of the four tools, a backend payload with an empty
flight list yields exactly the single-element "no flights found" list, and a
payload that is falsy or missing the `flights` field yields the one-element
"no flight data available" message — in each case uniformly in the
aggregate-price field and every mode-specific input, i.e. before any
mode-specific filtering, sorting or formatting runs. -/
theorem empty_results_spec
    (origin destination departure_date trip_type seat state tts cp : String)
    (n : Int)
    (hv : validateCommon origin destination departure_date trip_type seat = none)
    (hstate : state = "before" ∨ state = "after")
    (htime : (parse12 tts).isSome = true) :
    (get_general_flights_info origin destination departure_date trip_type seat n
        (.ok ⟨false, cp, some []⟩)
        = ["No flights found for the specified route and dates."]
     ∧ get_cheapest_flights origin destination departure_date trip_type seat
        (.ok ⟨false, cp, some []⟩)
        = ["No flights found for the specified route and dates."]
     ∧ get_best_flights origin destination departure_date trip_type seat
        (.ok ⟨false, cp, some []⟩)
        = ["No flights found for the specified route and dates."]
     ∧ get_time_filtered_flights state tts origin destination departure_date
        trip_type seat (.ok ⟨false, cp, some []⟩)
        = ["No flights found for the specified route and dates."])
    ∧ (get_general_flights_info origin destination departure_date trip_type seat n
        (.ok ⟨false, cp, none⟩)
        = ["No flight data available for the specified route and dates."]
     ∧ get_cheapest_flights origin destination departure_date trip_type seat
        (.ok ⟨false, cp, none⟩)
        = ["No flight data available for the specified route and dates."]
     ∧ get_best_flights origin destination departure_date trip_type seat
        (.ok ⟨false, cp, none⟩)
        = ["No flight data available for the specified route and dates."]
     ∧ get_time_filtered_flights state tts origin destination departure_date
        trip_type seat (.ok ⟨false, cp, none⟩)
        = ["No flight data available for the specified route and dates."])
    ∧ (∀ fl : Option (List Flight),
       get_general_flights_info origin destination departure_date trip_type seat n
          (.ok ⟨true, cp, fl⟩)
          = ["No flight data available for the specified route and dates."]
       ∧ get_cheapest_flights origin destination departure_date trip_type seat
          (.ok ⟨true, cp, fl⟩)
          = ["No flight data available for the specified route and dates."]
       ∧ get_best_flights origin destination departure_date trip_type seat
          (.ok ⟨true, cp, fl⟩)
          = ["No flight data available for the specified route and dates."]
       ∧ get_time_filtered_flights state tts origin destination departure_date
          trip_type seat (.ok ⟨true, cp, fl⟩)
          = ["No flight data available for the specified route and dates."]) := by
  obtain ⟨t, ht⟩ := Option.isSome_iff_exists.mp htime
  have hsif : ¬(state ≠ "before" ∧ state ≠ "after") := by
    rcases hstate with rfl | rfl <;> simp
  refine ⟨⟨?_, ?_, ?_, ?_⟩, ⟨?_, ?_, ?_, ?_⟩, fun fl => ⟨?_, ?_, ?_, ?_⟩⟩
  · simp [get_general_flights_info, hv, generalBody, runTool]
  · simp [get_cheapest_flights, hv, cheapestBody, runTool]
  · simp [get_best_flights, hv, bestBody, runTool]
  · simp only [get_time_filtered_flights, hv]
    rw [if_neg hsif]
    simp [timeBody, ht, runTool]
  · simp [get_general_flights_info, hv, generalBody, runTool]
  · simp [get_cheapest_flights, hv, cheapestBody, runTool]
  · simp [get_best_flights, hv, bestBody, runTool]
  · simp only [get_time_filtered_flights, hv]
    rw [if_neg hsif]
    simp [timeBody, ht, runTool]
  · simp [get_general_flights_info, hv, generalBody, runTool]
  · simp [get_cheapest_flights, hv, cheapestBody, runTool]
  · simp [get_best_flights, hv, bestBody, runTool]
  · simp only [get_time_filtered_flights, hv]
    rw [if_neg hsif]
    simp [timeBody, ht, runTool]

/-- Witness for C9 at a concrete valid query and an empty backend list. -/
theorem empty_results_spec_witness :
    get_general_flights_info "JFK" "FCO" "2025-05-05" "one-way" "economy" 40
        (.ok ⟨false, "low", some []⟩)
      = ["No flights found for the specified route and dates."] :=
  (empty_results_spec "JFK" "FCO" "2025-05-05" "one-way" "economy" "before"
    "7:00 PM" "low" 40 (by decide) (Or.inl rfl) (by decide)).1.1

end Flights
